import Mathlib

/-!
Verification development for the dq-utility-ai repository.

Shallow embedding of the components the specification talks about:
the websocket connection registry (src/web/websocket_handler.py), the
in-memory job-result cache (src/ecs/DQ-agent/agent.py), the retrying
websocket notification sender (src/ecs/DQ-agent/app.py), the Glue job
poller loop (src/lambdas/poller/poller.py), and the task-session store
and background-processing flow (src/ecs/DQ-agent/web_app.py).

Python dicts are modelled as association lists with an update-in-place
`dset`, first-occurrence `ddel`, and linear-scan `dget`; dict membership
`k in d` is `(dget d k).isSome`.  Wall-clock timestamps are integers
(seconds), and ISO-format timestamp strings that the code parses are
modelled as `Option Int`: `some t` for a parseable timestamp and `none`
for a missing or unparseable one.
-/

namespace DqUtility

/-! ## Python dict model -/

def dget {α : Type} : List (String × α) → String → Option α
  | [], _ => none
  | (k', v) :: t, k => if k' = k then some v else dget t k

def dset {α : Type} : List (String × α) → String → α → List (String × α)
  | [], k, v => [(k, v)]
  | (k', v') :: t, k, v => if k' = k then (k, v) :: t else (k', v') :: dset t k v

def ddel {α : Type} : List (String × α) → String → List (String × α)
  | [], _ => []
  | (k', v') :: t, k => if k' = k then t else (k', v') :: ddel t k

theorem dget_dset {α : Type} (m : List (String × α)) (k k' : String) (v : α) :
    dget (dset m k v) k' = if k = k' then some v else dget m k' := by
  induction m with
  | nil => simp [dget, dset]
  | cons h t ih =>
    obtain ⟨a, b⟩ := h
    by_cases hak : a = k
    · subst hak
      by_cases hkk : a = k'
      · simp [dget, dset, hkk]
      · simp [dget, dset, hkk]
    · by_cases hak' : a = k'
      · subst hak'
        simp [dget, dset, hak, Ne.symm hak]
      · simp [dget, dset, hak, hak', ih]

theorem dget_dset_self {α : Type} (m : List (String × α)) (k : String) (v : α) :
    dget (dset m k v) k = some v := by
  simp [dget_dset]

/-! ## ConnectionRegistry (src/web/websocket_handler.py)

`connections : connection_id -> Option username` (a connection starts with
username `None` until an auth message arrives) and
`user_connections : username -> connection_id`.
-/

structure Registry where
  connections : List (String × Option String)
  user_connections : List (String × String)
  deriving DecidableEq, Repr

def Registry.empty : Registry := { connections := [], user_connections := [] }

/-- `handle_connect`: stores `connections[connection_id] = None`. -/
def handle_connect (r : Registry) (connectionId : String) : Registry :=
  { r with connections := dset r.connections connectionId none }

/-- `handle_message` with a `type == "auth"` body carrying `username`:
when the username is truthy (non-empty), sets
`connections[connection_id] = username` and
`user_connections[username] = connection_id`. -/
def handle_auth (r : Registry) (connectionId username : String) : Registry :=
  if username ≠ "" then
    { connections := dset r.connections connectionId (some username),
      user_connections := dset r.user_connections username connectionId }
  else r

/-- `handle_disconnect`: looks up `username = connections.get(connection_id)`;
if the username is truthy and present in `user_connections`, deletes
`user_connections[username]` (with no check that the mapping points at the
disconnecting connection); then deletes `connections[connection_id]` if
present. -/
def handle_disconnect (r : Registry) (connectionId : String) : Registry :=
  let username : Option String :=
    match dget r.connections connectionId with
    | some (some u) => some u
    | _ => none
  let uc :=
    match username with
    | some u =>
      if u ≠ "" then
        if (dget r.user_connections u).isSome then ddel r.user_connections u
        else r.user_connections
      else r.user_connections
    | none => r.user_connections
  let conns :=
    if (dget r.connections connectionId).isSome then ddel r.connections connectionId
    else r.connections
  { connections := conns, user_connections := uc }

/-- `send_notification_to_user` lookup step: `user_connections` reverse map. -/
def registry_lookup (r : Registry) (username : String) : Option String :=
  dget r.user_connections username

/-- The registry state after: connect A, auth "alice" on A, connect B,
auth "alice" on B. -/
def c1_scenario_registered : Registry :=
  handle_auth (handle_connect (handle_auth (handle_connect Registry.empty "A") "A" "alice") "B") "B" "alice"

/-- Claim C1, counterexample.  After registering username "alice" on channel
A and then on channel B, `lookup "alice"` indeed returns B; but a subsequent
disconnect of channel A deletes the reverse mapping for "alice" outright
(the code never compares the reverse mapping against the channel being
removed), so the mapping of "alice" to B does NOT survive, contradicting the
claim. -/
theorem c1_counterexample :
    registry_lookup c1_scenario_registered "alice" = some "B" ∧
    registry_lookup (handle_disconnect c1_scenario_registered "A") "alice" = none := by
  constructor <;> rfl

/-- Claim C1, amended.  Starting from an empty registry: after registering a
non-empty username u on channel A and then on channel B, `lookup u` returns
B only; but a subsequent unregister (disconnect) of channel A removes the
reverse mapping of u entirely, because `handle_disconnect` deletes the
reverse entry for the disconnecting connection's username whenever that
username has any reverse mapping, regardless of which channel the mapping
points at.  So `lookup u` afterwards returns none, not B. -/
theorem c1_registry_amended (A B u : String) (hu : u ≠ "") :
    registry_lookup
      (handle_auth (handle_connect (handle_auth (handle_connect Registry.empty A) A u) B) B u) u
      = some B ∧
    registry_lookup
      (handle_disconnect
        (handle_auth (handle_connect (handle_auth (handle_connect Registry.empty A) A u) B) B u) A) u
      = none := by
  have hconn : dget (handle_auth (handle_connect (handle_auth (handle_connect Registry.empty A) A u) B) B u).connections A = some (some u) := by
    by_cases hAB : A = B
    · subst hAB
      simp [handle_connect, handle_auth, hu, dget_dset]
    · simp [handle_connect, handle_auth, hu, dget_dset, hAB, Ne.symm hAB]
  have huc : (handle_auth (handle_connect (handle_auth (handle_connect Registry.empty A) A u) B) B u).user_connections = [(u, B)] := by
    simp [handle_connect, handle_auth, hu, Registry.empty, dset]
  refine ⟨?_, ?_⟩
  · simp [registry_lookup, huc, dget]
  · simp only [registry_lookup, handle_disconnect, hconn, huc]
    simp [hu, dget, ddel]

/-- Witness for `c1_registry_amended` at A := "A", B := "B", u := "alice". -/
theorem c1_registry_amended_witness :
    registry_lookup
      (handle_auth (handle_connect (handle_auth (handle_connect Registry.empty "A") "A" "alice") "B") "B" "alice") "alice"
      = some "B" ∧
    registry_lookup
      (handle_disconnect
        (handle_auth (handle_connect (handle_auth (handle_connect Registry.empty "A") "A" "alice") "B") "B" "alice") "A") "alice"
      = none :=
  c1_registry_amended "A" "B" "alice" (by decide)

/-! ## ResultCache (src/ecs/DQ-agent/agent.py)

`_completed_jobs_cache` maps a lower-cased username to the most recent
completed job result.  The `completion_time` string stored in an entry is
modelled as `Option Int`: `some t` when the ISO timestamp parses to the
instant `t`, `none` when the field is missing or unparseable (the code
treats a parse failure identically to a missing field: the expiry check
raises, the exception handler returns True).
-/

/-- Python `str.lower()` (character-wise lowercasing). -/
def pyLower (s : String) : String := String.mk (s.data.map Char.toLower)

structure JobData where
  job_name : String
  run_id : String
  status : String
  completion_time : Option Int
  results : String
  session_id : String
  deriving DecidableEq, Repr

abbrev Cache := List (String × JobData)

/-- `is_cache_entry_expired`: no usable completion timestamp means expired;
otherwise the entry is expired iff its age strictly exceeds
`CACHE_TTL_HOURS * 3600` seconds. -/
def is_cache_entry_expired (cacheTtlHours : Int) (jobData : JobData) (now : Int) : Bool :=
  match jobData.completion_time with
  | none => true
  | some t => now - t > cacheTtlHours * 3600

/-- The formatted cache-hit string built by `get_cached_job_results`
(always non-empty; the empty string is the cache-miss result). -/
def format_cached_results (jobData : JobData) : String :=
  "\nCACHED JOB RESULTS AVAILABLE:\n- Job: " ++ jobData.job_name ++
  "\n- Status: " ++ jobData.status ++
  "\n- Completed: " ++ (match jobData.completion_time with
                        | some t => toString t
                        | none => "unknown") ++
  "\n- Results: " ++ jobData.results ++ "\n"

/-- `get_cached_job_results`: lower-cases the username, and on a hit first
runs the expiry check; an expired entry is deleted and the miss value `""`
returned, otherwise the formatted cached value is returned.  Returns the
result string together with the cache state after the read. -/
def get_cached_job_results (cacheTtlHours : Int) (cache : Cache) (username : String) (now : Int) :
    String × Cache :=
  let userKey := (pyLower username)
  match dget cache userKey with
  | some jobData =>
    if is_cache_entry_expired cacheTtlHours jobData now then ("", ddel cache userKey)
    else (format_cached_results jobData, cache)
  | none => ("", cache)

/-- The cache write performed inside `prompt` for a Glue job result:
`_completed_jobs_cache[user.name.lower()] = job_result_data`. -/
def store_completed_job (cache : Cache) (userName : String) (jobData : JobData) : Cache :=
  dset cache (pyLower userName) jobData

/-- The overall effect of `prompt` on `_completed_jobs_cache`: the store
happens only inside the `if is_glue_result and websocket_url:` block. -/
def prompt_cache_after (cache : Cache) (userName : String)
    (isGlueResult hasWebsocketUrl : Bool) (jobData : JobData) : Cache :=
  if isGlueResult && hasWebsocketUrl then store_completed_job cache userName jobData
  else cache

/-- Claim C2: on every read of a present entry, the expiry check runs first;
an entry whose age exceeds the TTL is deleted and the read returns absent
(the empty string); an unexpired entry is returned as the formatted cached
value with the cache unchanged; and an entry with a missing or unparseable
completion timestamp is treated as already expired, hence deleted on read
with absent returned. -/
theorem c2_cache_get_ttl (cacheTtlHours : Int) (cache : Cache) (username : String)
    (now : Int) (jd : JobData)
    (hmem : dget cache (pyLower username) = some jd) :
    (is_cache_entry_expired cacheTtlHours jd now = true →
      get_cached_job_results cacheTtlHours cache username now = ("", ddel cache (pyLower username))) ∧
    (is_cache_entry_expired cacheTtlHours jd now = false →
      get_cached_job_results cacheTtlHours cache username now = (format_cached_results jd, cache)) ∧
    (jd.completion_time = none →
      is_cache_entry_expired cacheTtlHours jd now = true ∧
      get_cached_job_results cacheTtlHours cache username now = ("", ddel cache (pyLower username))) := by
  refine ⟨?_, ?_, ?_⟩
  · intro hexp
    simp [get_cached_job_results, hmem, hexp]
  · intro hexp
    simp [get_cached_job_results, hmem, hexp]
  · intro hnone
    have hexp : is_cache_entry_expired cacheTtlHours jd now = true := by
      simp [is_cache_entry_expired, hnone]
    exact ⟨hexp, by simp [get_cached_job_results, hmem, hexp]⟩

/-- Witness for `c2_cache_get_ttl`: a concrete entry completed at time 0
with a 24-hour TTL, read at time 90001 (age exceeds 86400 s), is deleted
and absent is returned. -/
theorem c2_cache_get_ttl_witness :
    get_cached_job_results 24
      [("alice", ⟨"job1", "run1", "SUCCEEDED", some 0, "42 rows", "s1"⟩)] "Alice" 90001
      = ("", ddel [("alice", ⟨"job1", "run1", "SUCCEEDED", some 0, "42 rows", "s1"⟩)] "alice") :=
  (c2_cache_get_ttl 24 [("alice", ⟨"job1", "run1", "SUCCEEDED", some 0, "42 rows", "s1"⟩)]
    "Alice" 90001 ⟨"job1", "run1", "SUCCEEDED", some 0, "42 rows", "s1"⟩ (by rfl)).1 (by decide)

/-- Claim C7: `put` is a case-normalised overwrite.  Storing a result for a
user replaces whatever entry the lower-cased key held, and a subsequent
`get` with any casing of the same username, performed while the new entry
is unexpired, returns exactly the newly stored result (in particular this
holds when the cache previously held an expired entry for that key, i.e. a
put performed after the old entry expired is returned by the next get). -/
theorem c7_cache_put_overwrite (cacheTtlHours : Int) (cache : Cache) (u v : String)
    (jd : JobData) (now : Int)
    (hcase : (pyLower u) = (pyLower v))
    (hfresh : is_cache_entry_expired cacheTtlHours jd now = false) :
    dget (store_completed_job cache u jd) (pyLower u) = some jd ∧
    get_cached_job_results cacheTtlHours (store_completed_job cache u jd) v now
      = (format_cached_results jd, store_completed_job cache u jd) := by
  refine ⟨dget_dset_self _ _ _, ?_⟩
  have hkey : dget (store_completed_job cache u jd) (pyLower v) = some jd := by
    rw [← hcase]
    exact dget_dset_self _ _ _
  simp [get_cached_job_results, hkey, hfresh]

/-- Witness for `c7_cache_put_overwrite`: TTL 1 hour, an old entry completed
at time 0 that has long expired, a put under "ALICE" with a fresh entry
completed at 3660, then a get as "Alice" at 3661 returns the new entry. -/
theorem c7_cache_put_overwrite_witness :
    dget (store_completed_job [("alice", ⟨"old", "r0", "SUCCEEDED", some 0, "old rows", "s0"⟩)]
        "ALICE" ⟨"new", "r1", "SUCCEEDED", some 3660, "new rows", "s1"⟩) "alice"
      = some ⟨"new", "r1", "SUCCEEDED", some 3660, "new rows", "s1"⟩ ∧
    get_cached_job_results 1
        (store_completed_job [("alice", ⟨"old", "r0", "SUCCEEDED", some 0, "old rows", "s0"⟩)]
          "ALICE" ⟨"new", "r1", "SUCCEEDED", some 3660, "new rows", "s1"⟩) "Alice" 3661
      = (format_cached_results ⟨"new", "r1", "SUCCEEDED", some 3660, "new rows", "s1"⟩,
         store_completed_job [("alice", ⟨"old", "r0", "SUCCEEDED", some 0, "old rows", "s0"⟩)]
          "ALICE" ⟨"new", "r1", "SUCCEEDED", some 3660, "new rows", "s1"⟩) :=
  c7_cache_put_overwrite 1 [("alice", ⟨"old", "r0", "SUCCEEDED", some 0, "old rows", "s0"⟩)]
    "ALICE" "Alice" ⟨"new", "r1", "SUCCEEDED", some 3660, "new rows", "s1"⟩ 3661
    (by rfl) (by decide)

/-- Claim C9, counterexample.  A job-completion event processed with no
websocket URL attached does NOT create a ResultCache entry: the cache store
in `prompt` sits inside `if is_glue_result and websocket_url:`, so with
`websocket_url` falsy the cache stays empty and the subsequent status-style
query finds nothing. -/
theorem c9_counterexample :
    prompt_cache_after [] "alice" true false ⟨"job1", "run1", "SUCCEEDED", some 0, "42 rows", "s1"⟩ = [] ∧
    get_cached_job_results 24
      (prompt_cache_after [] "alice" true false ⟨"job1", "run1", "SUCCEEDED", some 0, "42 rows", "s1"⟩)
      "alice" 1 = ("", []) :=
  ⟨rfl, rfl⟩

/-- Claim C9, amended: for every job-completion event processed by the
receiving service that carries a websocket URL, a CachedJobResult entry is
created in (or overwrites) the ResultCache under the owning user's
case-normalised name, so that a subsequent status-style query by that user
(before the entry expires) finds the completed result; an event without a
websocket URL leaves the cache unchanged. -/
theorem c9_cache_on_completion_amended (cacheTtlHours : Int) (cache : Cache)
    (userName : String) (jd : JobData) (tGet : Int)
    (hfresh : is_cache_entry_expired cacheTtlHours jd tGet = false) :
    prompt_cache_after cache userName true true jd = store_completed_job cache userName jd ∧
    dget (prompt_cache_after cache userName true true jd) (pyLower userName) = some jd ∧
    get_cached_job_results cacheTtlHours (prompt_cache_after cache userName true true jd) userName tGet
      = (format_cached_results jd, store_completed_job cache userName jd) ∧
    prompt_cache_after cache userName true false jd = cache := by
  refine ⟨rfl, ?_, ?_, rfl⟩
  · simp [prompt_cache_after, store_completed_job, dget_dset_self]
  · have hkey : dget (store_completed_job cache userName jd) (pyLower userName) = some jd :=
      dget_dset_self _ _ _
    simp [prompt_cache_after, get_cached_job_results, hkey, hfresh]

/-- Witness for `c9_cache_on_completion_amended`: a completion for "Bob"
processed with a websocket URL is found by a status query one second after
completion. -/
theorem c9_cache_on_completion_amended_witness :
    prompt_cache_after [] "Bob" true true ⟨"job1", "run1", "SUCCEEDED", some 100, "42 rows", "s1"⟩
      = store_completed_job [] "Bob" ⟨"job1", "run1", "SUCCEEDED", some 100, "42 rows", "s1"⟩ ∧
    dget (prompt_cache_after [] "Bob" true true ⟨"job1", "run1", "SUCCEEDED", some 100, "42 rows", "s1"⟩) "bob"
      = some ⟨"job1", "run1", "SUCCEEDED", some 100, "42 rows", "s1"⟩ ∧
    get_cached_job_results 24
        (prompt_cache_after [] "Bob" true true ⟨"job1", "run1", "SUCCEEDED", some 100, "42 rows", "s1"⟩)
        "Bob" 101
      = (format_cached_results ⟨"job1", "run1", "SUCCEEDED", some 100, "42 rows", "s1"⟩,
         store_completed_job [] "Bob" ⟨"job1", "run1", "SUCCEEDED", some 100, "42 rows", "s1"⟩) ∧
    prompt_cache_after [] "Bob" true false ⟨"job1", "run1", "SUCCEEDED", some 100, "42 rows", "s1"⟩ = [] :=
  c9_cache_on_completion_amended 24 [] "Bob"
    ⟨"job1", "run1", "SUCCEEDED", some 100, "42 rows", "s1"⟩ 101 (by decide)

/-! ## NotificationDispatcher (src/ecs/DQ-agent/app.py, `send_websocket_notification_with_retry`)

One attempt of the `for attempt in range(max_retries)` loop either gets an
HTTP response with some status code or raises (transport error/timeout).
The loop body: a 200 response returns True immediately; any other outcome
falls through, and if the attempt was not the last one the loop sleeps
`2 ** attempt` seconds.  After the loop, False is returned.  The embedding
returns the result together with the number of attempts made and the list
of back-off sleep durations, in order.
-/

inductive AttemptOutcome
  | status (code : Nat)
  | exn
  deriving DecidableEq, Repr

/-- A send attempt counts as successful only on `response.status_code == 200`. -/
def attempt_succeeded : AttemptOutcome → Bool
  | .status code => code == 200
  | .exn => false

/-- The retry loop, structurally recursing on the number of remaining
attempts (`remaining = max_retries - attempt` at every call). -/
def send_retry_loop (transport : Nat → AttemptOutcome) (maxRetries : Nat) :
    Nat → Nat → List Nat → Bool × Nat × List Nat
  | 0, _, sleeps => (false, maxRetries, sleeps)
  | remaining + 1, attempt, sleeps =>
    if attempt_succeeded (transport attempt) then (true, attempt + 1, sleeps)
    else
      send_retry_loop transport maxRetries remaining (attempt + 1)
        (if attempt < maxRetries - 1 then sleeps ++ [2 ^ attempt] else sleeps)

def send_websocket_notification_with_retry (transport : Nat → AttemptOutcome)
    (maxRetries : Nat) : Bool × Nat × List Nat :=
  send_retry_loop transport maxRetries maxRetries 0 []

theorem send_retry_loop_true_iff (transport : Nat → AttemptOutcome) (maxRetries : Nat) :
    ∀ remaining attempt sleeps,
      ((send_retry_loop transport maxRetries remaining attempt sleeps).1 = true ↔
        ∃ i, attempt ≤ i ∧ i < attempt + remaining ∧ attempt_succeeded (transport i) = true) := by
  intro remaining
  induction remaining with
  | zero =>
    intro attempt sleeps
    simp only [send_retry_loop]
    constructor
    · intro h
      exact absurd h (by simp)
    · rintro ⟨i, h1, h2, _⟩
      omega
  | succ r ih =>
    intro attempt sleeps
    simp only [send_retry_loop]
    by_cases hs : attempt_succeeded (transport attempt) = true
    · simp only [hs, if_true]
      constructor
      · intro _
        exact ⟨attempt, le_refl _, by omega, hs⟩
      · intro _
        trivial
    · simp only [hs, if_false, Bool.false_eq_true]
      rw [ih]
      constructor
      · rintro ⟨i, h1, h2, h3⟩
        exact ⟨i, by omega, by omega, h3⟩
      · rintro ⟨i, h1, h2, h3⟩
        refine ⟨i, ?_, by omega, h3⟩
        rcases Nat.eq_or_lt_of_le h1 with heq | hlt
        · subst heq
          exact absurd h3 hs
        · omega

/-- Claim C3: (1) for every transport behaviour and retry bound, `send`
returns true exactly when some attempt within the bound got a positive
HTTP-200 acknowledgement; (2) a channel that fails acknowledgement twice
(HTTP 500) and then succeeds, under the default bound 3, yields true after
exactly 3 attempts with back-off sleeps of 1 s then 2 s (doubling from the
1-second base); (3) a channel whose attempts never succeed yields false
after exactly 3 attempts (the default `max_retries`), having slept 1 s and
2 s between attempts; the function only reports the outcome and mutates no
caller state. -/
theorem c3_dispatcher_retry :
    (∀ (transport : Nat → AttemptOutcome) (maxRetries : Nat),
      (send_websocket_notification_with_retry transport maxRetries).1 = true ↔
        ∃ i, i < maxRetries ∧ attempt_succeeded (transport i) = true) ∧
    send_websocket_notification_with_retry
        (fun i => if i < 2 then AttemptOutcome.status 500 else AttemptOutcome.status 200) 3
      = (true, 3, [1, 2]) ∧
    (∀ transport : Nat → AttemptOutcome,
      (∀ i, attempt_succeeded (transport i) = false) →
      send_websocket_notification_with_retry transport 3 = (false, 3, [1, 2])) := by
  refine ⟨?_, by decide, ?_⟩
  · intro transport maxRetries
    rw [send_websocket_notification_with_retry, send_retry_loop_true_iff]
    constructor
    · rintro ⟨i, _, h2, h3⟩
      exact ⟨i, by omega, h3⟩
    · rintro ⟨i, h1, h3⟩
      exact ⟨i, by omega, by omega, h3⟩
  · intro transport h
    simp [send_websocket_notification_with_retry, send_retry_loop, h 0, h 1, h 2]

/-- Witness for `c3_dispatcher_retry`: a transport that always raises is
retried 3 times and reported as failed, with sleeps 1 s and 2 s. -/
theorem c3_dispatcher_retry_witness :
    send_websocket_notification_with_retry (fun _ => AttemptOutcome.exn) 3 = (false, 3, [1, 2]) :=
  c3_dispatcher_retry.2.2 (fun _ => AttemptOutcome.exn) (fun _ => rfl)

/-! ## JobPoller (src/lambdas/poller/poller.py)

The handler loop, starting from `state = "RUNNING"`, `poll_count = 0`.
Each iteration: `glue.get_job_run` either returns a run state (the
`GlueRead.ok` case: the state is adopted, the poll count incremented, and
if `reinvoke` holds and the new count is a multiple of 3 a progress event
is emitted, then a terminal state breaks the loop) or raises `ClientError`
(the `GlueRead.err` case: the whole `try` body is skipped).  Then the
wall-clock ceiling check runs: if elapsed time strictly exceeds
`MAX_POLL_HOURS` the state is forced to `"TIMEOUT"` and the loop exits;
otherwise the loop sleeps `POLL_INTERVAL` seconds and re-enters.  Elapsed
time is modelled as the accumulated sleep time: at iteration `k`
(0-based), `k` sleeps have occurred, so the ceiling check compares
`k * pollIntervalSeconds` with `maxPollSeconds`.
-/

inductive GlueRead
  | ok (state : String)
  | err
  deriving DecidableEq, Repr

structure PollerConfig where
  pollIntervalSeconds : Nat
  maxPollSeconds : Nat
  reinvoke : Bool
  deriving DecidableEq, Repr

structure PollerState where
  state : String
  pollCount : Nat
  progressPolls : List Nat
  deriving DecidableEq, Repr

/-- `state in ['SUCCEEDED', 'FAILED', 'STOPPED', 'TIMEOUT']`. -/
def is_terminal_glue_state (s : String) : Bool :=
  s == "SUCCEEDED" || s == "FAILED" || s == "STOPPED" || s == "TIMEOUT"

/-- One iteration of the polling loop.  `Sum.inl` is a `break` with the
final state; `Sum.inr` continues with the next state.  `progressPolls`
records the poll counts at which a progress event was emitted. -/
def poller_iter (cfg : PollerConfig) (reads : Nat → GlueRead) (k : Nat)
    (ps : PollerState) : Sum PollerState PollerState :=
  match reads k with
  | .ok s =>
    let count := ps.pollCount + 1
    let events :=
      if cfg.reinvoke && count % 3 == 0 then ps.progressPolls ++ [count]
      else ps.progressPolls
    let ps1 : PollerState := { state := s, pollCount := count, progressPolls := events }
    if is_terminal_glue_state s then Sum.inl ps1
    else if k * cfg.pollIntervalSeconds > cfg.maxPollSeconds then
      Sum.inl { ps1 with state := "TIMEOUT" }
    else Sum.inr ps1
  | .err =>
    if k * cfg.pollIntervalSeconds > cfg.maxPollSeconds then
      Sum.inl { ps with state := "TIMEOUT" }
    else Sum.inr ps

/-- Fuel-bounded run of the loop from iteration `k`; `none` means the loop
was still running when the fuel ran out. -/
def poller_run (cfg : PollerConfig) (reads : Nat → GlueRead) :
    Nat → Nat → PollerState → Option PollerState
  | 0, _, _ => none
  | fuel + 1, k, ps =>
    match poller_iter cfg reads k ps with
    | Sum.inl final => some final
    | Sum.inr next => poller_run cfg reads fuel (k + 1) next

def poller_handler (cfg : PollerConfig) (reads : Nat → GlueRead) (fuel : Nat) :
    Option PollerState :=
  poller_run cfg reads fuel 0 { state := "RUNNING", pollCount := 0, progressPolls := [] }

theorem poller_run_timeout_state (cfg : PollerConfig) (reads : Nat → GlueRead)
    (hnt : ∀ k s, reads k = .ok s → is_terminal_glue_state s = false) :
    ∀ fuel k ps r, poller_run cfg reads fuel k ps = some r → r.state = "TIMEOUT" := by
  intro fuel
  induction fuel with
  | zero =>
    intro k ps r h
    exact absurd h (by simp [poller_run])
  | succ f ih =>
    intro k ps r h
    rw [poller_run] at h
    rcases hread : reads k with s | _
    · rw [poller_iter, hread] at h
      simp only [hnt k s hread, if_false, Bool.false_eq_true] at h
      by_cases hto : k * cfg.pollIntervalSeconds > cfg.maxPollSeconds
      · simp only [hto, if_true] at h
        cases h
        rfl
      · simp only [hto, if_false] at h
        exact ih (k + 1) _ r h
    · rw [poller_iter, hread] at h
      by_cases hto : k * cfg.pollIntervalSeconds > cfg.maxPollSeconds
      · simp only [hto, if_true] at h
        cases h
        rfl
      · simp only [hto, if_false] at h
        exact ih (k + 1) _ r h

theorem poller_run_terminates (cfg : PollerConfig) (reads : Nat → GlueRead) :
    ∀ fuel k ps, cfg.maxPollSeconds < (k + fuel) * cfg.pollIntervalSeconds →
      (poller_run cfg reads (fuel + 1) k ps).isSome := by
  intro fuel
  induction fuel with
  | zero =>
    intro k ps hlt
    simp only [Nat.add_zero] at hlt
    rw [poller_run, poller_iter]
    rcases reads k with s | _
    · by_cases hterm : is_terminal_glue_state s = true
      · simp [hterm]
      · simp only [Bool.not_eq_true] at hterm
        simp [hterm, hlt]
    · simp [hlt]
  | succ f ih =>
    intro k ps hlt
    rw [poller_run]
    rcases hit : poller_iter cfg reads k ps with final | next
    · simp
    · refine ih (k + 1) next ?_
      have harith : k + 1 + f = k + (f + 1) := by omega
      rw [harith]
      exact hlt

/-- Claim C4: (1) for every run whose external reads never yield a terminal
state — including runs where every read raises — the polling loop
terminates once elapsed time exceeds the ceiling (fuel
`maxPollSeconds / pollIntervalSeconds + 2` iterations always suffices),
and the final state is forced to `"TIMEOUT"`; (2) whenever a bounded run
completes at all under such reads, its final state is `"TIMEOUT"`; (3) a
failed read is a no-op for that poll cycle: below the ceiling the
iteration leaves the entire poller state (observed state, poll count,
progress history) unchanged, and above the ceiling it only forces the
state to `"TIMEOUT"`. -/
theorem c4_poller_ceiling (cfg : PollerConfig) (reads : Nat → GlueRead)
    (hint : 1 ≤ cfg.pollIntervalSeconds)
    (hnt : ∀ k s, reads k = .ok s → is_terminal_glue_state s = false) :
    (∃ r, poller_handler cfg reads (cfg.maxPollSeconds / cfg.pollIntervalSeconds + 2) = some r ∧
      r.state = "TIMEOUT") ∧
    (∀ fuel r, poller_handler cfg reads fuel = some r → r.state = "TIMEOUT") ∧
    (∀ k ps, reads k = .err →
      (k * cfg.pollIntervalSeconds ≤ cfg.maxPollSeconds →
        poller_iter cfg reads k ps = Sum.inr ps) ∧
      (cfg.maxPollSeconds < k * cfg.pollIntervalSeconds →
        poller_iter cfg reads k ps = Sum.inl { ps with state := "TIMEOUT" })) := by
  refine ⟨?_, ?_, ?_⟩
  · have hterm := poller_run_terminates cfg reads
      (cfg.maxPollSeconds / cfg.pollIntervalSeconds + 1) 0
      { state := "RUNNING", pollCount := 0, progressPolls := [] } ?_
    · rw [Option.isSome_iff_exists] at hterm
      obtain ⟨r, hr⟩ := hterm
      exact ⟨r, hr, poller_run_timeout_state cfg reads hnt _ 0 _ r hr⟩
    · have hmod := Nat.div_add_mod cfg.maxPollSeconds cfg.pollIntervalSeconds
      have hrem : cfg.maxPollSeconds % cfg.pollIntervalSeconds < cfg.pollIntervalSeconds :=
        Nat.mod_lt _ (by omega)
      have hexp : (0 + (cfg.maxPollSeconds / cfg.pollIntervalSeconds + 1)) * cfg.pollIntervalSeconds
          = cfg.pollIntervalSeconds * (cfg.maxPollSeconds / cfg.pollIntervalSeconds)
            + cfg.pollIntervalSeconds := by ring
      omega
  · intro fuel r h
    exact poller_run_timeout_state cfg reads hnt fuel 0 _ r h
  · intro k ps hread
    constructor
    · intro hle
      rw [poller_iter, hread]
      simp [Nat.not_lt.mpr hle]
    · intro hlt
      rw [poller_iter, hread]
      simp [hlt]

/-- Witness for `c4_poller_ceiling`: poll interval of 1 polling unit,
ceiling 1 unit, every read failing; the run terminates with final state
`"TIMEOUT"` having observed no terminal external state. -/
theorem c4_poller_ceiling_witness :
    ∃ r, poller_handler { pollIntervalSeconds := 1, maxPollSeconds := 1, reinvoke := true }
        (fun _ => GlueRead.err) (1 / 1 + 2) = some r ∧ r.state = "TIMEOUT" :=
  (c4_poller_ceiling { pollIntervalSeconds := 1, maxPollSeconds := 1, reinvoke := true }
    (fun _ => GlueRead.err) (by decide) (fun _ s h => nomatch h)).1

/-- Claim C6: with the scripted external-state sequence
[RUNNING, RUNNING, RUNNING, SUCCEEDED], poll interval 0 and the default
6-hour ceiling, the loop is still running after 3 polls, and on the 4th
poll it exits immediately upon observing SUCCEEDED, with exactly one
progress event, emitted on the 3rd poll (poll counts that are multiples of
3); granting more fuel changes nothing, i.e. no further poll occurs. -/
theorem c6_poller_cadence :
    poller_handler { pollIntervalSeconds := 0, maxPollSeconds := 21600, reinvoke := true }
      (fun k => GlueRead.ok (["RUNNING", "RUNNING", "RUNNING", "SUCCEEDED"].getD k "SUCCEEDED")) 3
      = none ∧
    poller_handler { pollIntervalSeconds := 0, maxPollSeconds := 21600, reinvoke := true }
      (fun k => GlueRead.ok (["RUNNING", "RUNNING", "RUNNING", "SUCCEEDED"].getD k "SUCCEEDED")) 4
      = some { state := "SUCCEEDED", pollCount := 4, progressPolls := [3] } ∧
    poller_handler { pollIntervalSeconds := 0, maxPollSeconds := 21600, reinvoke := true }
      (fun k => GlueRead.ok (["RUNNING", "RUNNING", "RUNNING", "SUCCEEDED"].getD k "SUCCEEDED")) 50
      = some { state := "SUCCEEDED", pollCount := 4, progressPolls := [3] } := by
  refine ⟨rfl, rfl, rfl⟩

/-! ## TaskStore (src/ecs/DQ-agent/web_app.py)

A task-session record is the JSON object stored at
`tasks/{task_id}/status.json`.  `update_task_progress` is a
read-modify-write that merges only `status`, `progress` and `updated_at`
into the existing record.
-/

structure TaskSession where
  task_id : String
  user_id : String
  username : String
  prompt : String
  status : String
  created_at : String
  progress : String
  updated_at : Option String
  deriving DecidableEq, Repr

/-- `create_task_session` initial record (status STARTED, no updated_at). -/
def create_task_session (taskId userId username promptText now : String) : TaskSession :=
  { task_id := taskId, user_id := userId, username := username, prompt := promptText,
    status := "STARTED", created_at := now,
    progress := "Initializing agent reasoning...", updated_at := none }

/-- `update_task_progress`: `session_data.update({status, progress, updated_at})`. -/
def update_task_progress (rec : TaskSession) (status message now : String) : TaskSession :=
  { rec with status := status, progress := message, updated_at := some now }

/-! ## Background processing traces (web_app.py `process_agent_background`,
app.py `handle_async_agent_processing`)

The externally visible side effects of the background task, in program
order: TaskStore writes, ResultCache stores, and websocket notification
attempts.  `agent.prompt` emits six PROCESSING task writes when a task id
is present, and performs its cache store and notification only for a Glue
result event with a websocket URL; both background processors call it with
a plain string prompt, so `is_glue_result` is false there.  When
`agent.prompt` raises instead of returning (`agentOk = false`), the writes
it performed before the exception are all PROCESSING task writes; the list
`agentSteps` carries their messages.
-/

inductive Ev
  | taskWrite (status message : String)
  | cacheStore (userKey : String)
  | notifySend (username : String)
  deriving DecidableEq, Repr

/-- Event trace of `agent.prompt` (src/ecs/DQ-agent/agent.py). -/
def prompt_events (userName : String) (hasTaskId isGlueResult hasWebsocketUrl : Bool) : List Ev :=
  (if hasTaskId then
    [Ev.taskWrite "PROCESSING" "Setting up agent session...",
     Ev.taskWrite "PROCESSING" "Processing your request...",
     Ev.taskWrite "PROCESSING" "Initializing data tools and connections...",
     Ev.taskWrite "PROCESSING" "Creating fresh AI agent with your tools...",
     Ev.taskWrite "PROCESSING" "AI agent is analyzing your request and generating response...",
     Ev.taskWrite "PROCESSING" "Finalizing response..."]
   else []) ++
  (if isGlueResult && hasWebsocketUrl then
    [Ev.cacheStore (pyLower userName), Ev.notifySend userName]
   else [])

/-- Event trace of `process_agent_background` (web_app.py): an initial
PROCESSING write, the agent call (string prompt, task id present), then on
normal return the COMPLETED write followed by the notification attempt; on
an exception from the agent call, the FAILED write followed by the
notification attempt. -/
def process_agent_background_events (userName responseText errorText : String)
    (agentOk : Bool) (agentSteps : List String) : List Ev :=
  if agentOk then
    Ev.taskWrite "PROCESSING" "Agent is analyzing your request..." ::
      (prompt_events userName true false false ++
        [Ev.taskWrite "COMPLETED" responseText, Ev.notifySend userName])
  else
    Ev.taskWrite "PROCESSING" "Agent is analyzing your request..." ::
      (agentSteps.map (fun m => Ev.taskWrite "PROCESSING" m) ++
        [Ev.taskWrite "FAILED" ("Processing failed: " ++ errorText), Ev.notifySend userName])

/-- Event trace of `handle_async_agent_processing` (app.py): identical
program order to `process_agent_background`. -/
def handle_async_agent_processing_events (userName responseText errorText : String)
    (agentOk : Bool) (agentSteps : List String) : List Ev :=
  if agentOk then
    Ev.taskWrite "PROCESSING" "Agent is analyzing your request..." ::
      (prompt_events userName true false false ++
        [Ev.taskWrite "COMPLETED" responseText, Ev.notifySend userName])
  else
    Ev.taskWrite "PROCESSING" "Agent is analyzing your request..." ::
      (agentSteps.map (fun m => Ev.taskWrite "PROCESSING" m) ++
        [Ev.taskWrite "FAILED" ("Processing failed: " ++ errorText), Ev.notifySend userName])

/-- Every notification attempt in the trace is preceded by a terminal
(COMPLETED or FAILED) TaskStore write. -/
def terminal_write_before_notify (tr : List Ev) : Prop :=
  ∀ (i : Nat) (u : String), tr[i]? = some (Ev.notifySend u) →
    ∃ j : Nat, j < i ∧ ∃ s m : String,
      tr[j]? = some (Ev.taskWrite s m) ∧ (s = "COMPLETED" ∨ s = "FAILED")

theorem terminal_write_before_notify_shape (pre post : List Ev) (s m : String)
    (hpre : ∀ e ∈ pre, ∀ u, e ≠ Ev.notifySend u)
    (hs : s = "COMPLETED" ∨ s = "FAILED") :
    terminal_write_before_notify (pre ++ Ev.taskWrite s m :: post) := by
  intro i u hi
  rcases lt_trichotomy i pre.length with h | h | h
  · rw [List.getElem?_append, if_pos h] at hi
    exact absurd rfl (hpre _ (List.getElem?_mem hi) u)
  · rw [List.getElem?_append_right (le_of_eq h.symm), h, Nat.sub_self] at hi
    simp at hi
  · refine ⟨pre.length, h, s, m, ?_, hs⟩
    rw [List.getElem?_append_right (le_refl _), Nat.sub_self]
    simp

/-- The status carried by a TaskStore write event, if any. -/
def task_write_status : Ev → Option String
  | Ev.taskWrite s _ => some s
  | _ => none

/-- The status of the last TaskStore write in a trace. -/
def last_task_write_status (tr : List Ev) : Option String :=
  (tr.filterMap task_write_status).getLast?

theorem write_order_shape (pre post : List Ev) (sT mT : String)
    (hpre : ∀ e ∈ pre, ∀ s m, e = Ev.taskWrite s m → s = "PROCESSING")
    (hpost : ∀ e ∈ post, ∀ s m, e ≠ Ev.taskWrite s m)
    (hsT : sT = "COMPLETED" ∨ sT = "FAILED") :
    ∀ (i j : Nat) (s m s' m' : String),
      (pre ++ Ev.taskWrite sT mT :: post)[i]? = some (Ev.taskWrite s m) →
      (s = "STARTED" ∨ s = "PROCESSING") →
      (pre ++ Ev.taskWrite sT mT :: post)[j]? = some (Ev.taskWrite s' m') →
      (s' = "COMPLETED" ∨ s' = "FAILED") →
      i < j := by
  intro i j s m s' m' hi hsi hj hsj
  have hjlen : j = pre.length := by
    rcases lt_trichotomy j pre.length with h | h | h
    · rw [List.getElem?_append, if_pos h] at hj
      have := hpre _ (List.getElem?_mem hj) s' m' rfl
      subst this
      rcases hsj with h' | h' <;> exact absurd h' (by decide)
    · exact h
    · rw [List.getElem?_append_right (by omega)] at hj
      rcases hpos : j - pre.length with _ | n
      · omega
      · rw [hpos] at hj
        simp only [List.getElem?_cons_succ] at hj
        exact absurd rfl (hpost _ (List.getElem?_mem hj) s' m')
  have hilen : i < pre.length := by
    rcases lt_trichotomy i pre.length with h | h | h
    · exact h
    · exfalso
      rw [List.getElem?_append_right (le_of_eq h.symm), h, Nat.sub_self] at hi
      simp only [List.getElem?_cons_zero, Option.some.injEq, Ev.taskWrite.injEq] at hi
      obtain ⟨hseq, -⟩ := hi
      have hs2 : s = sT := hseq.symm
      rcases hsi with h1 | h1 <;> rcases hsT with h2 | h2 <;> rw [h1, h2] at hs2 <;>
        exact absurd hs2 (by decide)
    · rw [List.getElem?_append_right (by omega)] at hi
      rcases hpos : i - pre.length with _ | n
      · omega
      · rw [hpos] at hi
        simp only [List.getElem?_cons_succ] at hi
        exact absurd rfl (hpost _ (List.getElem?_mem hi) s m)
  omega

theorem getLast?_cons_append_singleton {α : Type} (a b : α) (l : List α) :
    (a :: (l ++ [b])).getLast? = some b := by
  rw [← List.cons_append]
  exact List.getLast?_concat _

/-- Claim C5: in both background-processing paths, every notification
attempt in the side-effect trace is preceded by a terminal TaskStore write
(COMPLETED on the success path, FAILED on the failure path): the durable
record reflects the terminal outcome before delivery is attempted. -/
theorem c5_terminal_before_notify (userName responseText errorText : String)
    (agentOk : Bool) (agentSteps : List String) :
    terminal_write_before_notify
      (process_agent_background_events userName responseText errorText agentOk agentSteps) ∧
    terminal_write_before_notify
      (handle_async_agent_processing_events userName responseText errorText agentOk agentSteps) := by
  have key : ∀ ok : Bool, terminal_write_before_notify
      (process_agent_background_events userName responseText errorText ok agentSteps) := by
    intro ok
    cases ok
    · show terminal_write_before_notify
        ((Ev.taskWrite "PROCESSING" "Agent is analyzing your request..." ::
          agentSteps.map (fun msg => Ev.taskWrite "PROCESSING" msg)) ++
          Ev.taskWrite "FAILED" ("Processing failed: " ++ errorText) :: [Ev.notifySend userName])
      refine terminal_write_before_notify_shape _ _ _ _ ?_ (Or.inr rfl)
      intro e he u
      rcases List.mem_cons.mp he with h | h
      · subst h
        exact fun hc => nomatch hc
      · obtain ⟨a, -, h⟩ := List.mem_map.mp h
        subst h
        exact fun hc => nomatch hc
    · show terminal_write_before_notify
        ((Ev.taskWrite "PROCESSING" "Agent is analyzing your request..." ::
          prompt_events userName true false false) ++
          Ev.taskWrite "COMPLETED" responseText :: [Ev.notifySend userName])
      refine terminal_write_before_notify_shape _ _ _ _ ?_ (Or.inl rfl)
      intro e he u
      rcases List.mem_cons.mp he with h | h
      · subst h
        exact fun hc => nomatch hc
      · simp [prompt_events] at h
        rcases h with h | h | h | h | h | h <;> subst h <;> exact fun hc => nomatch hc
  exact ⟨key agentOk, key agentOk⟩

/-- Witness for `c5_terminal_before_notify`: in the concrete success trace
the notification attempt sits at index 8, and the theorem produces a
terminal TaskStore write strictly before it. -/
theorem c5_terminal_before_notify_witness :
    ∃ j : Nat, j < 8 ∧ ∃ s m : String,
      (process_agent_background_events "alice" "resp" "err" true [])[j]?
        = some (Ev.taskWrite s m) ∧ (s = "COMPLETED" ∨ s = "FAILED") :=
  (c5_terminal_before_notify "alice" "resp" "err" true []).1 8 "alice" (by decide)

/-- Claim C8: (1) `update_task_progress` after create modifies only
`status`, `progress` and `updated_at` — `task_id`, `user_id`, `username`,
`prompt` and `created_at` are unchanged by every update; (2) the last
TaskStore write of a background run has status COMPLETED (success) or
FAILED (failure); (3) every STARTED/PROCESSING write in the trace strictly
precedes every terminal COMPLETED/FAILED write, i.e. no STARTED or
PROCESSING status is ever written after a terminal write. -/
theorem c8_taskstore_frame :
    (∀ (rec : TaskSession) (s m t : String),
      (update_task_progress rec s m t).task_id = rec.task_id ∧
      (update_task_progress rec s m t).user_id = rec.user_id ∧
      (update_task_progress rec s m t).username = rec.username ∧
      (update_task_progress rec s m t).prompt = rec.prompt ∧
      (update_task_progress rec s m t).created_at = rec.created_at) ∧
    (∀ (userName responseText errorText : String) (agentOk : Bool) (agentSteps : List String),
      last_task_write_status
        (process_agent_background_events userName responseText errorText agentOk agentSteps)
        = some (if agentOk then "COMPLETED" else "FAILED")) ∧
    (∀ (userName responseText errorText : String) (agentOk : Bool) (agentSteps : List String)
        (i j : Nat) (s m s' m' : String),
      (process_agent_background_events userName responseText errorText agentOk agentSteps)[i]?
        = some (Ev.taskWrite s m) →
      (s = "STARTED" ∨ s = "PROCESSING") →
      (process_agent_background_events userName responseText errorText agentOk agentSteps)[j]?
        = some (Ev.taskWrite s' m') →
      (s' = "COMPLETED" ∨ s' = "FAILED") →
      i < j) := by
  refine ⟨?_, ?_, ?_⟩
  · intro rec s m t
    exact ⟨rfl, rfl, rfl, rfl, rfl⟩
  · intro userName responseText errorText agentOk agentSteps
    cases agentOk
    · show last_task_write_status
        (Ev.taskWrite "PROCESSING" "Agent is analyzing your request..." ::
          (agentSteps.map (fun msg => Ev.taskWrite "PROCESSING" msg) ++
            [Ev.taskWrite "FAILED" ("Processing failed: " ++ errorText),
             Ev.notifySend userName])) = some "FAILED"
      have hmap : ∀ l : List String,
          List.filterMap task_write_status (l.map (fun msg => Ev.taskWrite "PROCESSING" msg))
            = l.map (fun _ => "PROCESSING") := by
        intro l
        induction l with
        | nil => rfl
        | cons a t ih => simp [List.filterMap_cons, task_write_status, ih]
      rw [last_task_write_status, List.filterMap_cons, List.filterMap_append, hmap]
      exact getLast?_cons_append_singleton _ _ _
    · rfl
  · intro userName responseText errorText agentOk agentSteps i j s m s' m' hi hsi hj hsj
    cases agentOk
    · refine write_order_shape
        (Ev.taskWrite "PROCESSING" "Agent is analyzing your request..." ::
          agentSteps.map (fun msg => Ev.taskWrite "PROCESSING" msg))
        [Ev.notifySend userName] "FAILED" ("Processing failed: " ++ errorText)
        ?_ ?_ (Or.inr rfl) i j s m s' m' hi hsi hj hsj
      · intro e he s0 m0 heq
        rcases List.mem_cons.mp he with h | h
        · subst h
          injection heq with h1 _
          exact h1.symm
        · obtain ⟨a, -, h⟩ := List.mem_map.mp h
          subst h
          injection heq with h1 _
          exact h1.symm
      · intro e he s0 m0
        rcases List.mem_cons.mp he with h | h
        · subst h
          exact fun hc => nomatch hc
        · exact absurd h (List.not_mem_nil e)
    · refine write_order_shape
        (Ev.taskWrite "PROCESSING" "Agent is analyzing your request..." ::
          prompt_events userName true false false)
        [Ev.notifySend userName] "COMPLETED" responseText
        ?_ ?_ (Or.inl rfl) i j s m s' m' hi hsi hj hsj
      · intro e he s0 m0 heq
        rcases List.mem_cons.mp he with h | h
        · subst h
          injection heq with h1 _
          exact h1.symm
        · simp [prompt_events] at h
          rcases h with h | h | h | h | h | h <;> subst h <;>
            (injection heq with h1 _; exact h1.symm)
      · intro e he s0 m0
        rcases List.mem_cons.mp he with h | h
        · subst h
          exact fun hc => nomatch hc
        · exact absurd h (List.not_mem_nil e)

/-- Witness for `c8_taskstore_frame`: `created_at` survives a COMPLETED
update of a freshly created record; the concrete success trace ends its
TaskStore writes with COMPLETED; and the PROCESSING write at index 1
precedes the terminal write at index 7. -/
theorem c8_taskstore_frame_witness :
    (update_task_progress (create_task_session "t1" "u1" "alice" "p" "T0")
      "COMPLETED" "done" "T1").created_at = "T0" ∧
    last_task_write_status (process_agent_background_events "alice" "resp" "err" true [])
      = some "COMPLETED" ∧
    (1 : Nat) < 7 :=
  ⟨(c8_taskstore_frame.1 (create_task_session "t1" "u1" "alice" "p" "T0")
      "COMPLETED" "done" "T1").2.2.2.2,
   c8_taskstore_frame.2.1 "alice" "resp" "err" true [],
   c8_taskstore_frame.2.2 "alice" "resp" "err" true [] 1 7
     "PROCESSING" "Setting up agent session..." "COMPLETED" "resp"
     (by decide) (Or.inr rfl) (by decide) (Or.inl rfl)⟩

/-! ## Task status endpoint (web_app.py `get_task_status`)

After authentication, the stored record for the task id is fetched; a
missing object yields 404 "Task not found"; a record whose `user_id`
differs from the authenticated requester yields 403 "Access denied"
without the record contents; otherwise the record JSON is returned. -/

inductive TaskStatusResult
  | ok (rec : TaskSession)
  | accessDenied
  | notFound
  deriving DecidableEq, Repr

def get_task_status (store : List (String × TaskSession)) (requesterId taskId : String) :
    TaskStatusResult :=
  match dget store taskId with
  | none => TaskStatusResult.notFound
  | some rec =>
    if rec.user_id ≠ requesterId then TaskStatusResult.accessDenied
    else TaskStatusResult.ok rec

/-- Claim C10: the task-status query enforces ownership: an id with no
stored record yields not-found (404); a stored record is returned only to
the requester whose user id equals the record's `user_id`; any other
authenticated requester gets access-denied (403), which carries no record
contents. -/
theorem c10_task_status_ownership (store : List (String × TaskSession))
    (requesterId taskId : String) :
    (dget store taskId = none →
      get_task_status store requesterId taskId = TaskStatusResult.notFound) ∧
    (∀ rec : TaskSession, dget store taskId = some rec →
      (rec.user_id = requesterId →
        get_task_status store requesterId taskId = TaskStatusResult.ok rec) ∧
      (rec.user_id ≠ requesterId →
        get_task_status store requesterId taskId = TaskStatusResult.accessDenied)) := by
  refine ⟨?_, ?_⟩
  · intro h
    simp [get_task_status, h]
  · intro rec h
    refine ⟨?_, ?_⟩
    · intro he
      simp [get_task_status, h, he]
    · intro hne
      simp [get_task_status, h, hne]

/-- Witness for `c10_task_status_ownership`: a store holding one task owned
by "u1": the owner gets the record, "u2" gets access denied, and an
unknown task id gets not found. -/
theorem c10_task_status_ownership_witness :
    get_task_status [("t1", ⟨"t1", "u1", "alice", "p", "STARTED", "T0", "init", none⟩)] "u1" "t1"
      = TaskStatusResult.ok ⟨"t1", "u1", "alice", "p", "STARTED", "T0", "init", none⟩ ∧
    get_task_status [("t1", ⟨"t1", "u1", "alice", "p", "STARTED", "T0", "init", none⟩)] "u2" "t1"
      = TaskStatusResult.accessDenied ∧
    get_task_status [("t1", ⟨"t1", "u1", "alice", "p", "STARTED", "T0", "init", none⟩)] "u1" "t2"
      = TaskStatusResult.notFound :=
  ⟨((c10_task_status_ownership
      [("t1", ⟨"t1", "u1", "alice", "p", "STARTED", "T0", "init", none⟩)] "u1" "t1").2
      ⟨"t1", "u1", "alice", "p", "STARTED", "T0", "init", none⟩ (by rfl)).1 rfl,
   ((c10_task_status_ownership
      [("t1", ⟨"t1", "u1", "alice", "p", "STARTED", "T0", "init", none⟩)] "u2" "t1").2
      ⟨"t1", "u1", "alice", "p", "STARTED", "T0", "init", none⟩ (by rfl)).2 (by decide),
   (c10_task_status_ownership
      [("t1", ⟨"t1", "u1", "alice", "p", "STARTED", "T0", "init", none⟩)] "u1" "t2").1 (by rfl)⟩

end DqUtility
